import Mathlib

/-!
# Verification of the garment sizing and virtual try-on core

Shallow embedding of `garment_sizing.py`: the fit scoring engine
(`GarmentSizingSystem`) and the geometric part of the compositing pipeline
(`VirtualTryOnVisualizer.apply_garment_overlay`), together with theorems
about the specified behaviour.  Measurements are modelled as exact
rationals; Python integer truncation and floor division are modelled
explicitly.  A Python exception (an uncaught `IndexError` in the landmark
branch) is modelled as `Option.none`.
-/

/-- Python `str.lower`, modelled per character (ASCII). -/
def strLower (s : String) : String := ⟨s.data.map Char.toLower⟩

/-- Python `str.upper`, modelled per character (ASCII). -/
def strUpper (s : String) : String := ⟨s.data.map Char.toUpper⟩

/-- The `GarmentSize` enum: the six catalog sizes, in catalog order. -/
inductive GarmentSize where
  | XS | S | M | L | XL | XXL
deriving DecidableEq

/-- The `FitType` enum. -/
inductive FitType where
  | TIGHT | PERFECT | LOOSE
deriving DecidableEq

/-- The `GarmentMeasurements` dataclass (all fields in cm). -/
structure GarmentMeasurements where
  chest_cm : ℚ
  length_cm : ℚ
  shoulder_width_cm : ℚ
  sleeve_length_cm : ℚ
deriving DecidableEq

/-- The static `shirt_measurements` catalog of `GarmentSizingSystem.__init__`,
as the lookup `self.shirt_measurements[size]`. -/
def meas : GarmentSize → GarmentMeasurements
  | .XS => ⟨86, 66, 42, 59⟩
  | .S => ⟨91, 68, 44, 61⟩
  | .M => ⟨97, 70, 46, 63⟩
  | .L => ⟨102, 72, 48, 65⟩
  | .XL => ⟨107, 74, 50, 67⟩
  | .XXL => ⟨112, 76, 52, 69⟩

/-- Iteration order of the `shirt_measurements` dict (insertion order). -/
def sizeOrder : List GarmentSize := [.XS, .S, .M, .L, .XL, .XXL]

/-- The `fit_tolerance` entry `perfect_range`. -/
def perfect_range : ℚ := 2

/-- The `fit_tolerance` entry `loose_threshold`. -/
def loose_threshold : ℚ := 8

/-- The `fit_tolerance` entry `tight_threshold`. -/
def tight_threshold : ℚ := -3

/-- Position of a size in the catalog iteration order. -/
def sizeIdx : GarmentSize → Nat
  | .XS => 0
  | .S => 1
  | .M => 2
  | .L => 3
  | .XL => 4
  | .XXL => 5

/-- The `size.value` string of each `GarmentSize` enum member. -/
def sizeValue : GarmentSize → String
  | .XS => "XS"
  | .S => "S"
  | .M => "M"
  | .L => "L"
  | .XL => "XL"
  | .XXL => "XXL"

/-- Gender adjustment of `get_recommended_size`: the adjusted
`target_chest` (code order: `female` is tested first, then `male`). -/
def targetChest (chest_measurement : ℚ) (gender : String) : ℚ :=
  if strLower gender = "female" then chest_measurement + 2
  else if strLower gender = "male" then chest_measurement + 4
  else chest_measurement + 3

/-- One step of the closest-size loop of `get_recommended_size`.  The
accumulator is `none` while `min_difference` is still `float('inf')`;
the update condition `difference < min_difference` is strict. -/
def bestStep (target : ℚ) (acc : Option (GarmentSize × ℚ)) (s : GarmentSize) :
    Option (GarmentSize × ℚ) :=
  let d := |(meas s).chest_cm - target|
  match acc with
  | none => some (s, d)
  | some (b, m) => if d < m then some (s, d) else some (b, m)

/-- The closest-size loop of `get_recommended_size` over the catalog;
the `none` fallback corresponds to the initial `best_size = M` (reached
only on an empty catalog). -/
def pick (target : ℚ) : GarmentSize :=
  match sizeOrder.foldl (bestStep target) none with
  | some (b, _) => b
  | none => GarmentSize.M

/-- The method `GarmentSizingSystem.get_recommended_size`. -/
def get_recommended_size (chest_measurement : ℚ) (gender : String) : GarmentSize :=
  pick (targetChest chest_measurement gender)

/-- The `FitAnalysis` dataclass. -/
structure FitAnalysis where
  recommended_size : GarmentSize
  selected_size : GarmentSize
  fit_type : FitType
  chest_difference_cm : ℚ
  length_difference_cm : ℚ
  fit_score : ℚ
  fit_description : String
deriving DecidableEq

/-- The method `GarmentSizingSystem.analyze_fit`.  The Python literal
`0.40` is modelled as the exact rational `2/5`. -/
def analyze_fit (person_chest person_height : ℚ) (selected_size : GarmentSize)
    (gender : String) : FitAnalysis :=
  let recommended_size := get_recommended_size person_chest gender
  let g := meas selected_size
  let chest_difference := g.chest_cm - person_chest
  let length_difference := g.length_cm - person_height * (2/5)
  let ftd : FitType × String :=
    if chest_difference ≤ tight_threshold then
      (.TIGHT, "This size will be tight and may restrict movement")
    else if chest_difference ≥ loose_threshold then
      (.LOOSE, "This size will be loose and may look oversized")
    else if |chest_difference| ≤ perfect_range then
      (.PERFECT, "This size provides an excellent fit")
    else if chest_difference > 0 then
      (.LOOSE, "This size will be somewhat loose but comfortable")
    else
      (.TIGHT, "This size will be somewhat snug but wearable")
  let chest_penalty := min (|chest_difference| * 10) 50
  let length_penalty := min (|length_difference| * 5) 20
  let fit_score := max 0 (100 - chest_penalty - length_penalty)
  { recommended_size := recommended_size
    selected_size := selected_size
    fit_type := ftd.1
    chest_difference_cm := chest_difference
    length_difference_cm := length_difference
    fit_score := fit_score
    fit_description := ftd.2 }

/-- The method `GarmentSizingSystem.get_available_sizes`:
`list(self.shirt_measurements.keys())`. -/
def get_available_sizes : List GarmentSize := sizeOrder

/-- One value of the `size_data` dict built by
`GarmentSizingSystem.get_size_comparison_data` (its nested
`measurements` dict inlined). -/
structure SizeComparisonEntry where
  is_recommended : Bool
  fit_type : FitType
  fit_score : ℚ
  fit_description : String
  chest_difference : ℚ
  length_difference : ℚ
  chest : ℚ
  length : ℚ
  shoulder_width : ℚ
  sleeve_length : ℚ
deriving DecidableEq

/-- The result of `GarmentSizingSystem.get_size_comparison_data`; the
`size_analysis` dict is modelled as an association list in insertion
order, keyed by `size.value`. -/
structure SizeComparisonData where
  recommended_size : String
  person_chest : ℚ
  person_height : ℚ
  size_analysis : List (String × SizeComparisonEntry)
deriving DecidableEq

/-- The method `GarmentSizingSystem.get_size_comparison_data`. -/
def get_size_comparison_data (person_chest person_height : ℚ)
    (gender : String) : SizeComparisonData :=
  let recommended_size := get_recommended_size person_chest gender
  { recommended_size := sizeValue recommended_size
    person_chest := person_chest
    person_height := person_height
    size_analysis := get_available_sizes.map (fun size =>
      let analysis := analyze_fit person_chest person_height size gender
      let m := meas size
      (sizeValue size,
        { is_recommended := decide (size = recommended_size)
          fit_type := analysis.fit_type
          fit_score := analysis.fit_score
          fit_description := analysis.fit_description
          chest_difference := analysis.chest_difference_cm
          length_difference := analysis.length_difference_cm
          chest := m.chest_cm
          length := m.length_cm
          shoulder_width := m.shoulder_width_cm
          sleeve_length := m.sleeve_length_cm })) }

/-- The `GarmentSize(value)` enum lookup by value string, returning
`none` where Python raises `ValueError`. -/
def garmentSizeFromValue (s : String) : Option GarmentSize :=
  if s = "XS" then some .XS
  else if s = "S" then some .S
  else if s = "M" then some .M
  else if s = "L" then some .L
  else if s = "XL" then some .XL
  else if s = "XXL" then some .XXL
  else none

/-- The size-string resolution of `process_virtual_tryon_with_sizing`:
`GarmentSize(selected_size.upper())` with the `except ValueError`
fallback to `GarmentSize.M`. -/
def resolveSelectedSize (selected_size : String) : GarmentSize :=
  (garmentSizeFromValue (strUpper selected_size)).getD GarmentSize.M

/-- The fit analysis computed by `process_virtual_tryon_with_sizing`
once the size label string has been resolved. -/
def processFitAnalysis (person_chest person_height : ℚ)
    (selected_size gender : String) : FitAnalysis :=
  analyze_fit person_chest person_height (resolveSelectedSize selected_size) gender

/-- Python `int(...)` applied to a rational value: truncation toward
zero. -/
def pyInt (q : ℚ) : ℤ := if 0 ≤ q then ⌊q⌋ else ⌈q⌉

/-- The `scale_factor` of `VirtualTryOnVisualizer.apply_garment_overlay`
for a given fit type and `chest_difference_cm`. -/
def scaleFactor : FitType → ℚ → ℚ
  | .TIGHT, chest_diff => 3/4 + chest_diff / 20
  | .LOOSE, chest_diff => 1 + chest_diff / 15
  | .PERFECT, _ => 1

/-- The `width_adjustment` of `apply_garment_overlay`. -/
def widthAdjustment : FitType → ℚ
  | .TIGHT => 9/10
  | .LOOSE => 6/5
  | .PERFECT => 1

/-- The `height_adjustment` of `apply_garment_overlay`. -/
def heightAdjustment : FitType → ℚ
  | .TIGHT => 21/20
  | .LOOSE => 11/10
  | .PERFECT => 1

/-- The `new_garment_w` of `apply_garment_overlay`:
`int(garment_w * scale_factor * width_adjustment)`. -/
def newGarmentW (fit : FitType) (chest_diff : ℚ) (garment_w : ℤ) : ℤ :=
  pyInt ((garment_w : ℚ) * scaleFactor fit chest_diff * widthAdjustment fit)

/-- The `new_garment_h` of `apply_garment_overlay`:
`int(garment_h * scale_factor * height_adjustment)`. -/
def newGarmentH (fit : FitType) (chest_diff : ℚ) (garment_h : ℤ) : ℤ :=
  pyInt ((garment_h : ℚ) * scaleFactor fit chest_diff * heightAdjustment fit)

/-- The upward shift subtracted from the average shoulder `y` in the
landmark branch of `apply_garment_overlay`. -/
def fitShiftLandmark : FitType → ℤ
  | .TIGHT => 10
  | .LOOSE => 30
  | .PERFECT => 20

/-- The shift added to `person_h // 4` in the fallback branch of
`apply_garment_overlay`. -/
def fitShiftFallback : FitType → ℤ
  | .TIGHT => 20
  | .LOOSE => -20
  | .PERFECT => 0

/-- The placement anchor `(center_x, start_y)` computed by
`apply_garment_overlay`.  A pose landmark is an `(x, y)` pair of floats;
`pose_landmarks = None` is `none`, and a Python list is the embedded
list.  The guard is the code's `pose_landmarks and len(pose_landmarks) > 11`;
inside the branch the code reads indices 11 and 12, so a missing index 12
is an uncaught `IndexError`, modelled as `none`. -/
def computeAnchor (person_w person_h : ℤ) (fit : FitType)
    (pose_landmarks : Option (List (ℚ × ℚ))) : Option (ℤ × ℤ) :=
  let lms := pose_landmarks.getD []
  if lms ≠ [] ∧ lms.length > 11 then
    match lms.get? 11, lms.get? 12 with
    | some p11, some p12 =>
      let left_shoulder_x := pyInt p11.1
      let right_shoulder_x := pyInt p12.1
      let shoulder_y := pyInt ((p11.2 + p12.2) / 2)
      some (Int.fdiv (left_shoulder_x + right_shoulder_x) 2,
            shoulder_y - fitShiftLandmark fit)
    | _, _ => none
  else
    some (Int.fdiv person_w 2, Int.fdiv person_h 4 + fitShiftFallback fit)

/-- The bounds-clipping step of `apply_garment_overlay`: from the anchor
`(center_x, start_y)` and the resized garment dimensions, produce the
final placement rectangle `(start_x, start_y, end_x, end_y)`. -/
def clipRect (person_w person_h new_garment_w new_garment_h : ℤ)
    (anchor : ℤ × ℤ) : ℤ × ℤ × ℤ × ℤ :=
  let start_x := anchor.1 - Int.fdiv new_garment_w 2
  let start_x := max 0 (min start_x (person_w - new_garment_w))
  let start_y := max 0 (min anchor.2 (person_h - new_garment_h))
  let end_x := min (start_x + new_garment_w) person_w
  let end_y := min (start_y + new_garment_h) person_h
  (start_x, start_y, end_x, end_y)

/-- The placement-rectangle computation of `apply_garment_overlay`
end to end: anchor then clipping.  `none` is the uncaught `IndexError`
of the landmark branch; the blending steps that follow operate on
exactly this rectangle and always produce a complete image. -/
def overlayRect (person_w person_h garment_w garment_h : ℤ) (fit : FitType)
    (chest_diff : ℚ) (pose_landmarks : Option (List (ℚ × ℚ))) :
    Option (ℤ × ℤ × ℤ × ℤ) :=
  (computeAnchor person_w person_h fit pose_landmarks).map
    (clipRect person_w person_h (newGarmentW fit chest_diff garment_w)
      (newGarmentH fit chest_diff garment_h))

/-- A pose-landmark list with exactly 12 entries (indices 0..11). -/
def lms12 : List (ℚ × ℚ) := List.replicate 12 (0, 0)

/-- A pose-landmark list with exactly 13 entries (indices 0..12). -/
def lms13 : List (ℚ × ℚ) := List.replicate 13 (0, 0)

/-- The fit classification as the specification words it: evaluated in
priority order on the chest difference alone, first match wins.  Stated
separately from `analyze_fit` so the code's classification can be proved
to refine it. -/
def specFitType (chest_difference : ℚ) : FitType :=
  if chest_difference ≤ -3 then .TIGHT
  else if chest_difference ≥ 8 then .LOOSE
  else if |chest_difference| ≤ 2 then .PERFECT
  else if chest_difference > 0 then .LOOSE
  else .TIGHT

/-- The fit description accompanying each branch of the specified
classification, in the same priority order. -/
def specFitDescription (chest_difference : ℚ) : String :=
  if chest_difference ≤ -3 then "This size will be tight and may restrict movement"
  else if chest_difference ≥ 8 then "This size will be loose and may look oversized"
  else if |chest_difference| ≤ 2 then "This size provides an excellent fit"
  else if chest_difference > 0 then "This size will be somewhat loose but comfortable"
  else "This size will be somewhat snug but wearable"

/-! ## Closed form of the closest-size loop

For a target `t`, the loop keeps the first size attaining the minimal
absolute distance, and the catalog chest values `86, 91, 97, 102, 107,
112` are ascending, so the result is determined by the midpoints
`88.5, 94, 99.5, 104.5, 109.5` between consecutive chest values. -/

theorem pick_eq_XS (t : ℚ) (h1 : t ≤ 177/2) : pick t = GarmentSize.XS := by
  have c1 : ¬ |(91:ℚ) - t| < |(86:ℚ) - t| := by
    rw [abs_lt_iff_mul_self_lt]; nlinarith
  have c2 : ¬ |(97:ℚ) - t| < |(86:ℚ) - t| := by
    rw [abs_lt_iff_mul_self_lt]; nlinarith
  have c3 : ¬ |(102:ℚ) - t| < |(86:ℚ) - t| := by
    rw [abs_lt_iff_mul_self_lt]; nlinarith
  have c4 : ¬ |(107:ℚ) - t| < |(86:ℚ) - t| := by
    rw [abs_lt_iff_mul_self_lt]; nlinarith
  have c5 : ¬ |(112:ℚ) - t| < |(86:ℚ) - t| := by
    rw [abs_lt_iff_mul_self_lt]; nlinarith
  unfold pick sizeOrder
  rw [List.foldl_cons, List.foldl_cons, List.foldl_cons, List.foldl_cons,
    List.foldl_cons, List.foldl_cons, List.foldl_nil]
  simp only [bestStep, meas]
  simp only [if_neg c1, if_neg c2, if_neg c3, if_neg c4, if_neg c5]

theorem pick_eq_S (t : ℚ) (h1 : 177/2 < t) (h2 : t ≤ 94) : pick t = GarmentSize.S := by
  have c1 : |(91:ℚ) - t| < |(86:ℚ) - t| := by
    rw [abs_lt_iff_mul_self_lt]; nlinarith
  have c2 : ¬ |(97:ℚ) - t| < |(91:ℚ) - t| := by
    rw [abs_lt_iff_mul_self_lt]; nlinarith
  have c3 : ¬ |(102:ℚ) - t| < |(91:ℚ) - t| := by
    rw [abs_lt_iff_mul_self_lt]; nlinarith
  have c4 : ¬ |(107:ℚ) - t| < |(91:ℚ) - t| := by
    rw [abs_lt_iff_mul_self_lt]; nlinarith
  have c5 : ¬ |(112:ℚ) - t| < |(91:ℚ) - t| := by
    rw [abs_lt_iff_mul_self_lt]; nlinarith
  unfold pick sizeOrder
  rw [List.foldl_cons, List.foldl_cons, List.foldl_cons, List.foldl_cons,
    List.foldl_cons, List.foldl_cons, List.foldl_nil]
  simp only [bestStep, meas]
  simp only [if_pos c1, if_neg c2, if_neg c3, if_neg c4, if_neg c5]

theorem pick_eq_M (t : ℚ) (h1 : 94 < t) (h2 : t ≤ 199/2) : pick t = GarmentSize.M := by
  have c1 : |(91:ℚ) - t| < |(86:ℚ) - t| := by
    rw [abs_lt_iff_mul_self_lt]; nlinarith
  have c2 : |(97:ℚ) - t| < |(91:ℚ) - t| := by
    rw [abs_lt_iff_mul_self_lt]; nlinarith
  have c3 : ¬ |(102:ℚ) - t| < |(97:ℚ) - t| := by
    rw [abs_lt_iff_mul_self_lt]; nlinarith
  have c4 : ¬ |(107:ℚ) - t| < |(97:ℚ) - t| := by
    rw [abs_lt_iff_mul_self_lt]; nlinarith
  have c5 : ¬ |(112:ℚ) - t| < |(97:ℚ) - t| := by
    rw [abs_lt_iff_mul_self_lt]; nlinarith
  unfold pick sizeOrder
  rw [List.foldl_cons, List.foldl_cons, List.foldl_cons, List.foldl_cons,
    List.foldl_cons, List.foldl_cons, List.foldl_nil]
  simp only [bestStep, meas]
  simp only [if_pos c1, if_pos c2, if_neg c3, if_neg c4, if_neg c5]

theorem pick_eq_L (t : ℚ) (h1 : 199/2 < t) (h2 : t ≤ 209/2) : pick t = GarmentSize.L := by
  have hm : 94 < t := by linarith
  have c1 : |(91:ℚ) - t| < |(86:ℚ) - t| := by
    rw [abs_lt_iff_mul_self_lt]; nlinarith
  have c2 : |(97:ℚ) - t| < |(91:ℚ) - t| := by
    rw [abs_lt_iff_mul_self_lt]; nlinarith
  have c3 : |(102:ℚ) - t| < |(97:ℚ) - t| := by
    rw [abs_lt_iff_mul_self_lt]; nlinarith
  have c4 : ¬ |(107:ℚ) - t| < |(102:ℚ) - t| := by
    rw [abs_lt_iff_mul_self_lt]; nlinarith
  have c5 : ¬ |(112:ℚ) - t| < |(102:ℚ) - t| := by
    rw [abs_lt_iff_mul_self_lt]; nlinarith
  unfold pick sizeOrder
  rw [List.foldl_cons, List.foldl_cons, List.foldl_cons, List.foldl_cons,
    List.foldl_cons, List.foldl_cons, List.foldl_nil]
  simp only [bestStep, meas]
  simp only [if_pos c1, if_pos c2, if_pos c3, if_neg c4, if_neg c5]

theorem pick_eq_XL (t : ℚ) (h1 : 209/2 < t) (h2 : t ≤ 219/2) : pick t = GarmentSize.XL := by
  have c1 : |(91:ℚ) - t| < |(86:ℚ) - t| := by
    rw [abs_lt_iff_mul_self_lt]; nlinarith
  have c2 : |(97:ℚ) - t| < |(91:ℚ) - t| := by
    rw [abs_lt_iff_mul_self_lt]; nlinarith
  have c3 : |(102:ℚ) - t| < |(97:ℚ) - t| := by
    rw [abs_lt_iff_mul_self_lt]; nlinarith
  have c4 : |(107:ℚ) - t| < |(102:ℚ) - t| := by
    rw [abs_lt_iff_mul_self_lt]; nlinarith
  have c5 : ¬ |(112:ℚ) - t| < |(107:ℚ) - t| := by
    rw [abs_lt_iff_mul_self_lt]; nlinarith
  unfold pick sizeOrder
  rw [List.foldl_cons, List.foldl_cons, List.foldl_cons, List.foldl_cons,
    List.foldl_cons, List.foldl_cons, List.foldl_nil]
  simp only [bestStep, meas]
  simp only [if_pos c1, if_pos c2, if_pos c3, if_pos c4, if_neg c5]

theorem pick_eq_XXL (t : ℚ) (h1 : 219/2 < t) : pick t = GarmentSize.XXL := by
  have c1 : |(91:ℚ) - t| < |(86:ℚ) - t| := by
    rw [abs_lt_iff_mul_self_lt]; nlinarith
  have c2 : |(97:ℚ) - t| < |(91:ℚ) - t| := by
    rw [abs_lt_iff_mul_self_lt]; nlinarith
  have c3 : |(102:ℚ) - t| < |(97:ℚ) - t| := by
    rw [abs_lt_iff_mul_self_lt]; nlinarith
  have c4 : |(107:ℚ) - t| < |(102:ℚ) - t| := by
    rw [abs_lt_iff_mul_self_lt]; nlinarith
  have c5 : |(112:ℚ) - t| < |(107:ℚ) - t| := by
    rw [abs_lt_iff_mul_self_lt]; nlinarith
  unfold pick sizeOrder
  rw [List.foldl_cons, List.foldl_cons, List.foldl_cons, List.foldl_cons,
    List.foldl_cons, List.foldl_cons, List.foldl_nil]
  simp only [bestStep, meas]
  simp only [if_pos c1, if_pos c2, if_pos c3, if_pos c4, if_pos c5]

/-- The loop result is a catalog member, minimizes the absolute distance
to the target over the catalog, and among minimizers is the earliest in
catalog iteration order. -/
theorem pick_min (t : ℚ) : pick t ∈ sizeOrder ∧ ∀ s ∈ sizeOrder,
    |(meas (pick t)).chest_cm - t| ≤ |(meas s).chest_cm - t| ∧
    (|(meas s).chest_cm - t| ≤ |(meas (pick t)).chest_cm - t| →
      sizeIdx (pick t) ≤ sizeIdx s) := by
  have main : ∀ r : GarmentSize, pick t = r → ∀ s ∈ sizeOrder,
      |(meas r).chest_cm - t| ≤ |(meas s).chest_cm - t| ∧
      (|(meas s).chest_cm - t| ≤ |(meas r).chest_cm - t| →
        sizeIdx r ≤ sizeIdx s) := by
    intro r hr s hs
    simp only [sizeOrder, List.mem_cons, List.not_mem_nil, or_false] at hs
    rcases le_or_lt t (177/2) with h1 | h1
    · rw [pick_eq_XS t h1] at hr
      subst hr
      rcases hs with rfl | rfl | rfl | rfl | rfl | rfl <;>
        refine ⟨?_, ?_⟩ <;>
        first
          | exact le_refl _
          | (simp only [meas]
             rw [abs_le_iff_mul_self_le]
             nlinarith)
          | (intro hcon
             decide)
          | (intro hcon
             exfalso
             simp only [meas] at hcon
             rw [abs_le_iff_mul_self_le] at hcon
             nlinarith)
    · rcases le_or_lt t 94 with h2 | h2
      · rw [pick_eq_S t h1 h2] at hr
        subst hr
        rcases hs with rfl | rfl | rfl | rfl | rfl | rfl <;>
          refine ⟨?_, ?_⟩ <;>
          first
            | exact le_refl _
            | (simp only [meas]
               rw [abs_le_iff_mul_self_le]
               nlinarith)
            | (intro hcon
               decide)
            | (intro hcon
               exfalso
               simp only [meas] at hcon
               rw [abs_le_iff_mul_self_le] at hcon
               nlinarith)
      · rcases le_or_lt t (199/2) with h3 | h3
        · rw [pick_eq_M t h2 h3] at hr
          subst hr
          rcases hs with rfl | rfl | rfl | rfl | rfl | rfl <;>
            refine ⟨?_, ?_⟩ <;>
            first
              | exact le_refl _
              | (simp only [meas]
                 rw [abs_le_iff_mul_self_le]
                 nlinarith)
              | (intro hcon
                 decide)
              | (intro hcon
                 exfalso
                 simp only [meas] at hcon
                 rw [abs_le_iff_mul_self_le] at hcon
                 nlinarith)
        · rcases le_or_lt t (209/2) with h4 | h4
          · rw [pick_eq_L t h3 h4] at hr
            subst hr
            rcases hs with rfl | rfl | rfl | rfl | rfl | rfl <;>
              refine ⟨?_, ?_⟩ <;>
              first
                | exact le_refl _
                | (simp only [meas]
                   rw [abs_le_iff_mul_self_le]
                   nlinarith)
                | (intro hcon
                   decide)
                | (intro hcon
                   exfalso
                   simp only [meas] at hcon
                   rw [abs_le_iff_mul_self_le] at hcon
                   nlinarith)
          · rcases le_or_lt t (219/2) with h5 | h5
            · rw [pick_eq_XL t h4 h5] at hr
              subst hr
              rcases hs with rfl | rfl | rfl | rfl | rfl | rfl <;>
                refine ⟨?_, ?_⟩ <;>
                first
                  | exact le_refl _
                  | (simp only [meas]
                     rw [abs_le_iff_mul_self_le]
                     nlinarith)
                  | (intro hcon
                     decide)
                  | (intro hcon
                     exfalso
                     simp only [meas] at hcon
                     rw [abs_le_iff_mul_self_le] at hcon
                     nlinarith)
            · rw [pick_eq_XXL t h5] at hr
              subst hr
              rcases hs with rfl | rfl | rfl | rfl | rfl | rfl <;>
                refine ⟨?_, ?_⟩ <;>
                first
                  | exact le_refl _
                  | (simp only [meas]
                     rw [abs_le_iff_mul_self_le]
                     nlinarith)
                  | (intro hcon
                     decide)
                  | (intro hcon
                     exfalso
                     simp only [meas] at hcon
                     rw [abs_le_iff_mul_self_le] at hcon
                     nlinarith)
  refine ⟨?_, main (pick t) rfl⟩
  rcases le_or_lt t (177/2) with h1 | h1
  · rw [pick_eq_XS t h1]; decide
  rcases le_or_lt t 94 with h2 | h2
  · rw [pick_eq_S t h1 h2]; decide
  rcases le_or_lt t (199/2) with h3 | h3
  · rw [pick_eq_M t h2 h3]; decide
  rcases le_or_lt t (209/2) with h4 | h4
  · rw [pick_eq_L t h3 h4]; decide
  rcases le_or_lt t (219/2) with h5 | h5
  · rw [pick_eq_XL t h4 h5]; decide
  · rw [pick_eq_XXL t h5]; decide

/-! ## Helper facts for the compositing geometry -/

/-- One axis of the clipping step: with a positive image extent and a
positive resized-garment extent, the clipped interval is nonempty,
whatever start coordinate the anchor produced. -/
theorem clip_axis (w n x : ℤ) (hw : 1 ≤ w) (hn : 1 ≤ n) :
    1 ≤ min (max 0 (min x (w - n)) + n) w - max 0 (min x (w - n)) := by
  rcases le_total x (w - n) with h | h <;> rcases le_total 0 (w - n) with h2 | h2 <;>
    simp only [min_def, max_def] <;> split_ifs <;> omega

/-! ## Claims -/

/-- C1: `analyze_fit` classifies the fit by evaluating, in priority
order on `chest_difference = garment.chest_cm - person_chest`:
tight threshold first, then loose threshold, then the perfect band,
then the sign of the difference — first match wins, for every input;
the recorded `chest_difference_cm` is exactly that difference, and the
description follows the same priority order. -/
theorem C1_fit_classification (person_chest person_height : ℚ)
    (selected_size : GarmentSize) (gender : String) :
    (analyze_fit person_chest person_height selected_size gender).chest_difference_cm
      = (meas selected_size).chest_cm - person_chest
    ∧ (analyze_fit person_chest person_height selected_size gender).fit_type
      = specFitType ((meas selected_size).chest_cm - person_chest)
    ∧ (analyze_fit person_chest person_height selected_size gender).fit_description
      = specFitDescription ((meas selected_size).chest_cm - person_chest) := by
  refine ⟨rfl, ?_, ?_⟩
  · simp only [analyze_fit, specFitType, tight_threshold, loose_threshold, perfect_range]
    split_ifs <;> rfl
  · simp only [analyze_fit, specFitDescription, tight_threshold, loose_threshold,
      perfect_range]
    split_ifs <;> rfl

/-- C2: the fit score equals the clamp of `100` minus the capped chest
penalty minus the capped length penalty, and is therefore always within
`[0, 100]`, in fact always at least `30`. -/
theorem C2_fit_score_clamp (person_chest person_height : ℚ)
    (selected_size : GarmentSize) (gender : String) :
    (analyze_fit person_chest person_height selected_size gender).fit_score
      = max 0 (min 100 (100
          - min (|(analyze_fit person_chest person_height selected_size gender).chest_difference_cm| * 10) 50
          - min (|(analyze_fit person_chest person_height selected_size gender).length_difference_cm| * 5) 20))
    ∧ 0 ≤ (analyze_fit person_chest person_height selected_size gender).fit_score
    ∧ (analyze_fit person_chest person_height selected_size gender).fit_score ≤ 100
    ∧ 30 ≤ (analyze_fit person_chest person_height selected_size gender).fit_score := by
  simp only [analyze_fit]
  set cp := min (|(meas selected_size).chest_cm - person_chest| * 10) 50 with hcp
  set lp := min (|(meas selected_size).length_cm - person_height * (2/5)| * 5) 20 with hlp
  have hc0 : (0:ℚ) ≤ cp := le_min (by positivity) (by norm_num)
  have hc1 : cp ≤ 50 := min_le_right _ _
  have hl0 : (0:ℚ) ≤ lp := le_min (by positivity) (by norm_num)
  have hl1 : lp ≤ 20 := min_le_right _ _
  have hmin : min (100:ℚ) (100 - cp - lp) = 100 - cp - lp := min_eq_right (by linarith)
  exact ⟨by rw [hmin], le_max_left _ _, max_le (by norm_num) (by linarith),
    le_max_of_le_right (by linarith)⟩

/-- C3 (amended): `get_recommended_size` lowercases the gender string and
adds `+4` cm when it equals `male`, `+2` when `female`, `+3` otherwise;
it then returns a catalog size minimizing the absolute distance of
`chest_cm` to the adjusted target, with ties broken by catalog iteration
order (the first, smaller size wins), so it always returns a catalog
member. -/
theorem C3_recommended_size (chest : ℚ) (gender : String) :
    get_recommended_size chest gender ∈ sizeOrder
    ∧ targetChest chest gender
        = chest + (if strLower gender = "male" then 4
            else if strLower gender = "female" then 2 else 3)
    ∧ ∀ s ∈ sizeOrder,
        |(meas (get_recommended_size chest gender)).chest_cm - targetChest chest gender|
          ≤ |(meas s).chest_cm - targetChest chest gender|
        ∧ (|(meas s).chest_cm - targetChest chest gender|
             ≤ |(meas (get_recommended_size chest gender)).chest_cm - targetChest chest gender|
           → sizeIdx (get_recommended_size chest gender) ≤ sizeIdx s) := by
  have hpm := pick_min (targetChest chest gender)
  refine ⟨hpm.1, ?_, hpm.2⟩
  unfold targetChest
  by_cases hf : strLower gender = "female"
  · have hm : ¬ strLower gender = "male" := by rw [hf]; decide
    rw [if_pos hf, if_neg hm, if_pos hf]
  · by_cases hm : strLower gender = "male"
    · rw [if_neg hf, if_pos hm, if_pos hm]
    · rw [if_neg hf, if_neg hm, if_neg hm, if_neg hf]

/-- C4: the fit score is monotonically non-increasing in the absolute
chest difference and the absolute length difference, across any two
calls of `analyze_fit`; and a PERFECT classification implies the
absolute chest difference is within `perfect_range`. -/
theorem C4_monotonicity :
    (∀ pc1 ph1 s1 g1 pc2 ph2 s2 g2,
      |(analyze_fit pc1 ph1 s1 g1).chest_difference_cm|
        ≤ |(analyze_fit pc2 ph2 s2 g2).chest_difference_cm| →
      |(analyze_fit pc1 ph1 s1 g1).length_difference_cm|
        ≤ |(analyze_fit pc2 ph2 s2 g2).length_difference_cm| →
      (analyze_fit pc2 ph2 s2 g2).fit_score ≤ (analyze_fit pc1 ph1 s1 g1).fit_score)
    ∧ (∀ pc ph s g, (analyze_fit pc ph s g).fit_type = FitType.PERFECT →
        |(analyze_fit pc ph s g).chest_difference_cm| ≤ perfect_range) := by
  constructor
  · intro pc1 ph1 s1 g1 pc2 ph2 s2 g2 hc hl
    simp only [analyze_fit] at hc hl ⊢
    have hcp : min (|(meas s1).chest_cm - pc1| * 10) 50
        ≤ min (|(meas s2).chest_cm - pc2| * 10) 50 :=
      min_le_min (mul_le_mul_of_nonneg_right hc (by norm_num)) le_rfl
    have hlp : min (|(meas s1).length_cm - ph1 * (2/5)| * 5) 20
        ≤ min (|(meas s2).length_cm - ph2 * (2/5)| * 5) 20 :=
      min_le_min (mul_le_mul_of_nonneg_right hl (by norm_num)) le_rfl
    exact max_le_max le_rfl (by linarith)
  · intro pc ph s g h
    simp only [analyze_fit] at h ⊢
    split_ifs at h <;> first | assumption | exact absurd h (by decide)

/-- C6: for every input, `get_size_comparison_data` produces exactly one
entry per catalog size (six entries), exactly one of which is marked
`is_recommended`, and that entry is keyed by the size returned by
`get_recommended_size` on the same inputs. -/
theorem C6_size_comparison (person_chest person_height : ℚ) (gender : String) :
    (get_size_comparison_data person_chest person_height gender).size_analysis.length = 6
    ∧ (get_size_comparison_data person_chest person_height gender).size_analysis.map Prod.fst
        = sizeOrder.map sizeValue
    ∧ ((get_size_comparison_data person_chest person_height gender).size_analysis.filter
          (fun e => e.2.is_recommended)).map Prod.fst
        = [sizeValue (get_recommended_size person_chest gender)] := by
  cases hrec : get_recommended_size person_chest gender <;>
    simp [get_size_comparison_data, get_available_sizes, sizeOrder, hrec, sizeValue,
      List.filter]

/-- C9: when the size label string does not name a catalog size after
uppercasing, `process_virtual_tryon_with_sizing` substitutes size `M`
and proceeds with the analysis; a label that does name a catalog size is
used as given. -/
theorem C9_size_label_fallback (person_chest person_height : ℚ)
    (gender selected : String) :
    (garmentSizeFromValue (strUpper selected) = none →
      processFitAnalysis person_chest person_height selected gender
        = analyze_fit person_chest person_height GarmentSize.M gender)
    ∧ (∀ z, garmentSizeFromValue (strUpper selected) = some z →
        processFitAnalysis person_chest person_height selected gender
          = analyze_fit person_chest person_height z gender) := by
  unfold processFitAnalysis resolveSelectedSize
  constructor
  · intro h
    rw [h]
    rfl
  · intro z h
    rw [h]
    rfl

/-- C10: the landmark branch of `apply_garment_overlay` is taken for any
non-empty landmark list of length greater than 11, but reads index 12:
a list of exactly 12 landmarks makes the call fail with an out-of-range
access (modelled as `none`), while a list of 13 or more succeeds with
the shoulder-midpoint anchor. -/
theorem C10_landmark_length_threshold (person_w person_h : ℤ) (fit : FitType)
    (lms : List (ℚ × ℚ)) :
    (lms.length = 12 → computeAnchor person_w person_h fit (some lms) = none)
    ∧ (13 ≤ lms.length →
        computeAnchor person_w person_h fit (some lms)
          = some (Int.fdiv (pyInt (lms.getD 11 (0, 0)).1 + pyInt (lms.getD 12 (0, 0)).1) 2,
              pyInt (((lms.getD 11 (0, 0)).2 + (lms.getD 12 (0, 0)).2) / 2)
                - fitShiftLandmark fit)) := by
  constructor
  · intro h12
    unfold computeAnchor
    simp only [Option.getD_some]
    rw [if_pos ⟨List.length_pos.mp (by omega), by omega⟩]
    rw [List.get?_eq_get (show 11 < lms.length by omega),
      List.get?_eq_none.mpr (by omega)]
  · intro h13
    unfold computeAnchor
    simp only [Option.getD_some]
    rw [if_pos ⟨List.length_pos.mp (by omega), by omega⟩]
    have e11 : lms.getD 11 (0, 0) = lms.get ⟨11, by omega⟩ := by
      rw [List.getD_eq_getElem?_getD, ← List.get?_eq_getElem?,
        List.get?_eq_get (show 11 < lms.length by omega)]
      rfl
    have e12 : lms.getD 12 (0, 0) = lms.get ⟨12, by omega⟩ := by
      rw [List.getD_eq_getElem?_getD, ← List.get?_eq_getElem?,
        List.get?_eq_get (show 12 < lms.length by omega)]
      rfl
    rw [List.get?_eq_get (show 11 < lms.length by omega),
      List.get?_eq_get (show 12 < lms.length by omega), e11, e12]

/-- C8 (amended): `apply_garment_overlay` has no zero-area failure path:
whenever the person image and the resized garment have positive
dimensions, the placement rectangle clipped to the person image bounds
has positive extent on both axes — a person image smaller than the
placement rectangle is handled by clipping and resizing, and a complete
result is produced. -/
theorem C8_clip_positive_area (person_w person_h garment_w garment_h : ℤ)
    (fit : FitType) (chest_diff : ℚ) (pose_landmarks : Option (List (ℚ × ℚ)))
    (hpw : 1 ≤ person_w) (hph : 1 ≤ person_h)
    (hgw : 1 ≤ newGarmentW fit chest_diff garment_w)
    (hgh : 1 ≤ newGarmentH fit chest_diff garment_h) :
    ∀ r ∈ overlayRect person_w person_h garment_w garment_h fit chest_diff pose_landmarks,
      1 ≤ r.2.2.1 - r.1 ∧ 1 ≤ r.2.2.2 - r.2.1 := by
  intro r hr
  rw [overlayRect, Option.mem_def, Option.map_eq_some'] at hr
  obtain ⟨a, _, rfl⟩ := hr
  unfold clipRect
  constructor
  · exact clip_axis person_w (newGarmentW fit chest_diff garment_w)
      (a.1 - Int.fdiv (newGarmentW fit chest_diff garment_w) 2) hpw hgw
  · exact clip_axis person_h (newGarmentH fit chest_diff garment_h) a.2 hph hgh

section

attribute [local semireducible] Rat.add Rat.sub Rat.mul Rat.inv

/-- C5: the concrete scenario: for chest 93, height 175, gender male,
the recommendation is M; size M yields chest difference 4, LOOSE with
the somewhat-loose description, length difference 0 and score 60; size
S yields chest difference -2 and PERFECT. -/
theorem C5_concrete_scenario :
    get_recommended_size 93 "male" = GarmentSize.M
    ∧ (analyze_fit 93 175 GarmentSize.M "male").chest_difference_cm = 4
    ∧ (analyze_fit 93 175 GarmentSize.M "male").fit_type = FitType.LOOSE
    ∧ (analyze_fit 93 175 GarmentSize.M "male").fit_description
        = "This size will be somewhat loose but comfortable"
    ∧ (analyze_fit 93 175 GarmentSize.M "male").length_difference_cm = 0
    ∧ (analyze_fit 93 175 GarmentSize.M "male").fit_score = 60
    ∧ (analyze_fit 93 175 GarmentSize.S "male").chest_difference_cm = -2
    ∧ (analyze_fit 93 175 GarmentSize.S "male").fit_type = FitType.PERFECT := by
  decide

/-- C3 counterexample: the claim assigns the `+3` allowance to any
gender value other than the exact strings `male` and `female`, but for
the value `Male` the code adds `+4`: at chest `90.5` the claimed `+3`
target makes `S` strictly closer than the returned size `M`. -/
theorem C3_recommended_size_counterexample :
    "Male" ≠ "male"
    ∧ "Male" ≠ "female"
    ∧ get_recommended_size (181/2) "Male" = GarmentSize.M
    ∧ |(meas GarmentSize.S).chest_cm - (181/2 + 3)|
        < |(meas GarmentSize.M).chest_cm - (181/2 + 3)| := by
  refine ⟨by decide, by decide, by decide, by decide⟩

/-- C3 witness: the amended theorem applied at chest 93, gender male,
against catalog size S. -/
theorem C3_recommended_size_witness :
    get_recommended_size 93 "male" ∈ sizeOrder
    ∧ |(meas (get_recommended_size 93 "male")).chest_cm - targetChest 93 "male"|
        ≤ |(meas GarmentSize.S).chest_cm - targetChest 93 "male"| :=
  ⟨(C3_recommended_size 93 "male").1,
    ((C3_recommended_size 93 "male").2.2 GarmentSize.S (by decide)).1⟩

/-- C4 witness: monotonicity applied to sizes M and L for the same
person, and the PERFECT bound applied to size S. -/
theorem C4_monotonicity_witness :
    (analyze_fit 93 175 GarmentSize.L "male").fit_score
      ≤ (analyze_fit 93 175 GarmentSize.M "male").fit_score
    ∧ |(analyze_fit 93 175 GarmentSize.S "male").chest_difference_cm| ≤ perfect_range :=
  ⟨C4_monotonicity.1 93 175 GarmentSize.M "male" 93 175 GarmentSize.L "male"
      (by decide) (by decide),
    C4_monotonicity.2 93 175 GarmentSize.S "male" (by decide)⟩

/-- C7: the code comment says the branch condition checks that the
shoulder landmarks exist, but `len(pose_landmarks) > 11` admits a
12-element list whose index 12 is then read: the call raises an
`IndexError` (modelled as `none`) instead of using the documented
fallback anchor, which for a 100 by 200 image and PERFECT fit would be
`(50, 50)`. -/
theorem C7_landmark_guard_bug :
    lms12.length = 12
    ∧ computeAnchor 100 200 FitType.PERFECT (some lms12) = none
    ∧ computeAnchor 100 200 FitType.PERFECT none = some (50, 50) := by
  refine ⟨by decide, by decide, by decide⟩

/-- C8 counterexample: a 5 by 5 person image with a 10 by 10 placement
rectangle (smaller on both axes) does not fail: the rectangle is clipped
to `(0, 0, 5, 5)`, which has positive area, and compositing proceeds. -/
theorem C8_clip_positive_area_counterexample :
    newGarmentW FitType.PERFECT 0 10 = 10
    ∧ newGarmentH FitType.PERFECT 0 10 = 10
    ∧ (5:ℤ) < 10
    ∧ overlayRect 5 5 10 10 FitType.PERFECT 0 none = some (0, 0, 5, 5) := by
  refine ⟨by decide, by decide, by decide, by decide⟩

/-- C8 witness: the amended theorem applied to the 5 by 5 person image
and the clipped rectangle `(0, 0, 5, 5)`. -/
theorem C8_clip_positive_area_witness :
    1 ≤ (5:ℤ) - 0 ∧ 1 ≤ (5:ℤ) - 0 :=
  C8_clip_positive_area 5 5 10 10 FitType.PERFECT 0 none (by decide) (by decide)
    (by decide) (by decide) (0, 0, 5, 5) (by decide)

/-- C9 witness: the fallback applied to the unknown label `banana` and
the pass-through applied to the lower-case label `m`. -/
theorem C9_size_label_fallback_witness :
    processFitAnalysis 93 175 "banana" "male"
      = analyze_fit 93 175 GarmentSize.M "male"
    ∧ processFitAnalysis 93 175 "m" "male"
      = analyze_fit 93 175 GarmentSize.M "male" :=
  ⟨(C9_size_label_fallback 93 175 "male" "banana").1 (by decide),
    (C9_size_label_fallback 93 175 "male" "m").2 GarmentSize.M (by decide)⟩

/-- C10 witness: the off-by-one theorem applied to a 12-element list
(failure) and a 13-element list (anchor produced). -/
theorem C10_landmark_length_threshold_witness :
    computeAnchor 100 200 FitType.PERFECT (some lms12) = none
    ∧ computeAnchor 100 200 FitType.PERFECT (some lms13) = some (0, -20) := by
  constructor
  · exact (C10_landmark_length_threshold 100 200 FitType.PERFECT lms12).1 (by decide)
  · have h := (C10_landmark_length_threshold 100 200 FitType.PERFECT lms13).2 (by decide)
    rw [h]
    decide

end
